import Mathlib

/-!
Shallow embedding of `src/amazon_pay/report_client.py` (class `ReportClient`).

The client resolves five required configuration fields from explicit
arguments or environment variables, looks the region code up in the static
table `ap_region.regions`, builds an endpoint URL and a User-Agent string,
and exposes three report operations that build a parameter mapping and hand
it to the `ReportRequest` collaborator.

The modules `ap_region` and `report_version` are part of the repository but
are not under `src/`; their contents (`regions`, `versions`) are therefore
kept abstract as fields of `SysEnv` below, as are the ambient quantities the
constructor reads (`os.environ`, `sys.version_info`, `platform.system()`,
`platform.release()`).
-/

/-- A Python scalar value as it appears in the parameter mappings of the
report operations: `None`, a string, an integer or a boolean. -/
inductive PyVal where
  | pynone
  | str (s : String)
  | int (n : Int)
  | bool (b : Bool)
deriving DecidableEq, Repr

/-- The exceptions raised by the constructor of `ReportClient`: a
`ValueError` whose message is Invalid <param>. for a missing required
field, a `KeyError` whose message is Invalid region code (<code>) for an
unmapped region code, and the `AttributeError` from calling upper on
`log_level` when `log_level` is `None` while `log_enabled` is set. -/
inductive InitError where
  | valueError (msg : String)
  | keyError (msg : String)
  | attributeError (msg : String)
deriving DecidableEq, Repr

/-- The arguments of the `ReportClient` constructor, with the defaults of
the source (`None` for the five required fields and the application
fields, `sandbox=False`, `handle_throttle=True`, `log_enabled=False`,
`log_level=None`). -/
structure ClientArgs where
  mws_access_key : Option String := none
  mws_secret_key : Option String := none
  merchant_id : Option String := none
  region : Option String := none
  currency_code : Option String := none
  sandbox : Bool := false
  handle_throttle : Bool := true
  application_name : Option String := none
  application_version : Option String := none
  log_enabled : Bool := false
  log_file_name : Option String := none
  log_level : Option String := none
deriving DecidableEq, Repr

/-- The ambient environment the constructor reads.
`env` is `os.environ`; `regions` is the static lookup table
`ap_region.regions` (module not under `src/`, kept abstract);
`api_version`, `api_name` and `application_library_version` are the entries
of `report_version.versions` (module not under `src/`, kept abstract);
`py_version` is the dot-joined first three components of
`sys.version_info`;
`platform_system` and `platform_release` are `platform.system()` and
`platform.release()`. -/
structure SysEnv where
  env : String → Option String
  regions : String → Option String
  api_version : String
  api_name : String
  application_library_version : String
  py_version : String
  platform_system : String
  platform_release : String

/-- The instance state of a successfully constructed `ReportClient`. -/
structure ReportClient where
  mws_access_key : String
  mws_secret_key : String
  merchant_id : String
  region : String
  currency_code : String
  handle_throttle : Bool
  application_name : Option String
  application_version : Option String
  _region : String
  _region_code : String
  _sandbox : Bool
  _api_version : String
  _api_name : String
  _application_library_version : String
  _mws_endpoint : String
  _user_agent : String
  _headers : List (String × String)
deriving DecidableEq, Repr

/-- `ReportClient._set_endpoint`: assigns to `_mws_endpoint` the string
https:// followed by `_region`, a slash, `_api_name`, a slash and
`_api_version`. -/
def ReportClient.set_endpoint (c : ReportClient) : ReportClient :=
  { c with _mws_endpoint :=
      "https://" ++ c._region ++ "/" ++ c._api_name ++ "/" ++ c._api_version }

/-- The `sandbox` property setter: stores the value and calls
`self._set_endpoint()`. -/
def ReportClient.setSandbox (c : ReportClient) (value : Bool) : ReportClient :=
  ReportClient.set_endpoint { c with _sandbox := value }

/-- Resolution of one required field in the constructor: the explicit
argument wins; otherwise `os.environ` is read at the named variable, and a
lookup failure is turned into a `ValueError` whose message is
Invalid <param>. by the bare except clause. -/
def resolveField (name : String) (explicit : Option String)
    (envVal : Option String) : Except InitError String :=
  match explicit with
  | some v => Except.ok v
  | none =>
    match envVal with
    | some v => Except.ok v
    | none => Except.error (InitError.valueError ("Invalid " ++ name ++ "."))

/-- The `app_name_and_ver` string built at lines 147-158 of
`report_client.py`: the application name if neither empty nor `None`, then
a slash and the version if the version is also set, the version alone if
only it is set, and a trailing semicolon-and-space whenever either is
set. -/
def appNameAndVer (application_name application_version : Option String) :
    String :=
  let notBlank : Option String → Bool := fun o =>
    match o with
    | none => false
    | some s => s ≠ ""
  let base :=
    if notBlank application_name then
      (application_name.getD "") ++
        (if notBlank application_version then
          "/" ++ (application_version.getD "") else "")
    else if notBlank application_version then application_version.getD ""
    else ""
  if notBlank application_name || notBlank application_version then
    base ++ "; "
  else base

/-- The User-Agent string of lines 160-168: the fixed template
amazon-pay-sdk-python/<lib> (<app>Python/<interp>; <system>/<release>)
formatted with the library version, `app_name_and_ver`, the interpreter
version and the platform system/release. -/
def userAgent (se : SysEnv) (application_name application_version :
    Option String) : String :=
  "amazon-pay-sdk-python/" ++ se.application_library_version ++ " (" ++
    appNameAndVer application_name application_version ++ "Python/" ++
    se.py_version ++ "; " ++ se.platform_system ++ "/" ++
    se.platform_release ++ ")"

/-- `ReportClient.__init__`.  Resolves the five required fields in the
iteration order of `env_param_map`, maps the region code through
`ap_region.regions` (a `KeyError` there is re-raised with the message
`Invalid region code (...)`), then — when `log_enabled` is not `False` —
evaluates `log_level.upper()`, which raises `AttributeError` when
`log_level` is `None`.  Logging-handler side effects are I/O and are not
modelled.  Finally the instance fields, the endpoint (via `_set_endpoint`),
the User-Agent and the headers are set. -/
def ReportClient.init (se : SysEnv) (a : ClientArgs) :
    Except InitError ReportClient :=
  match resolveField "mws_access_key" a.mws_access_key
      (se.env "AP_MWS_ACCESS_KEY") with
  | Except.error e => Except.error e
  | Except.ok mak =>
  match resolveField "mws_secret_key" a.mws_secret_key
      (se.env "AP_MWS_SECRET_KEY") with
  | Except.error e => Except.error e
  | Except.ok msk =>
  match resolveField "merchant_id" a.merchant_id
      (se.env "AP_MERCHANT_ID") with
  | Except.error e => Except.error e
  | Except.ok mid =>
  match resolveField "region" a.region (se.env "AP_REGION") with
  | Except.error e => Except.error e
  | Except.ok reg =>
  match resolveField "currency_code" a.currency_code
      (se.env "AP_CURRENCY_CODE") with
  | Except.error e => Except.error e
  | Except.ok cc =>
  match se.regions reg with
  | none =>
    Except.error (InitError.keyError ("Invalid region code (" ++ reg ++ ")"))
  | some host =>
  if a.log_enabled ∧ a.log_level = none then
    Except.error (InitError.attributeError
      ("NoneType object has no attribute upper"))
  else
    let ua := userAgent se a.application_name a.application_version
    Except.ok (ReportClient.set_endpoint
      { mws_access_key := mak
        mws_secret_key := msk
        merchant_id := mid
        region := reg
        currency_code := cc
        handle_throttle := a.handle_throttle
        application_name := a.application_name
        application_version := a.application_version
        _region := host
        _region_code := reg
        _sandbox := a.sandbox
        _api_version := se.api_version
        _api_name := se.api_name
        _application_library_version := se.application_library_version
        _mws_endpoint := ""
        _user_agent := ua
        _headers := [("Content-Type", "application/x-www-form-urlencoded"),
                     ("User-Agent", ua)] })

/-- Python-dict assignment `d[k] = v` on a dict modelled as an
insertion-ordered association list: an existing key is updated in place, a
new key is appended. -/
def dictInsert (d : List (String × PyVal)) (k : String) (v : PyVal) :
    List (String × PyVal) :=
  if d.any (fun p => p.fst = k) then
    d.map (fun p => if p.fst = k then (k, v) else p)
  else d ++ [(k, v)]

/-- The loop of `ReportClient._operation` over `options.keys()`:
`if options[opt] is not None: params[opt] = options[opt]`. -/
def mergeOptions (params options : List (String × PyVal)) :
    List (String × PyVal) :=
  options.foldl
    (fun acc p => if p.snd = PyVal.pynone then acc else dictInsert acc p.fst p.snd)
    params

/-- A value of the client-wide `config` mapping passed to `ReportRequest`:
a string, the headers dict, or the boolean throttle flag. -/
inductive ConfigVal where
  | str (s : String)
  | headers (h : List (String × String))
  | bool (b : Bool)
deriving DecidableEq, Repr

/-- The `config` dict built inside `ReportClient._operation` and passed to
`ReportRequest`. -/
def ReportClient.opConfig (c : ReportClient) : List (String × ConfigVal) :=
  [("mws_access_key", ConfigVal.str c.mws_access_key),
   ("mws_secret_key", ConfigVal.str c.mws_secret_key),
   ("api_version", ConfigVal.str c._api_version),
   ("merchant_id", ConfigVal.str c.merchant_id),
   ("mws_endpoint", ConfigVal.str c._mws_endpoint),
   ("headers", ConfigVal.headers c._headers),
   ("handle_throttle", ConfigVal.bool c.handle_throttle)]

/-- The `ReportRequest` collaborator as constructed by `_operation`: it
records the `params` and `config` it was built from.  Its `send_post` and
`response` behaviour live outside `src/` and are abstracted by a transport
function below. -/
structure ReportRequest where
  params : List (String × PyVal)
  config : List (String × ConfigVal)
deriving DecidableEq, Repr

/-- `ReportClient._operation(params, options=None)`: merge the non-`None`
options into `params`, construct one `ReportRequest`, call `send_post()`
once and return `request.response`.  The transport collaborator (module not
under `src/`) is abstracted as `transport : ReportRequest → ρ`, so that
`request.response` after `send_post()` is `transport request`.  The result
also carries the possibly-mutated client (the method assigns no instance
attribute, so it is the input client) and the list of requests on which
`send_post` was invoked, in order. -/
def ReportClient.operation {ρ : Type} (transport : ReportRequest → ρ)
    (c : ReportClient) (params : List (String × PyVal))
    (options : Option (List (String × PyVal))) :
    ρ × ReportClient × List ReportRequest :=
  let ps :=
    match options with
    | none => params
    | some os => mergeOptions params os
  let request : ReportRequest := ⟨ps, c.opConfig⟩
  (transport request, c, [request])

/-- `ReportClient.get_report_list`: fixed `Action` parameter plus six
optional parameters forwarded through `_operation`. -/
def ReportClient.get_report_list {ρ : Type} (transport : ReportRequest → ρ)
    (c : ReportClient)
    (available_from available_to acknowledged report_type_list
      merchant_id mws_auth_token : PyVal) :
    ρ × ReportClient × List ReportRequest :=
  ReportClient.operation transport c
    [("Action", PyVal.str "GetReportList")]
    (some [("AvailableFromDate", available_from),
           ("AvailableToDate", available_to),
           ("Acknowledged", acknowledged),
           ("ReportTypeList.Type.1", report_type_list),
           ("SellerId", merchant_id),
           ("MWSAuthToken", mws_auth_token)])

/-- `ReportClient.get_report`: required `report_id` plus two optional
parameters forwarded through `_operation`. -/
def ReportClient.get_report {ρ : Type} (transport : ReportRequest → ρ)
    (c : ReportClient) (report_id : PyVal)
    (merchant_id mws_auth_token : PyVal) :
    ρ × ReportClient × List ReportRequest :=
  ReportClient.operation transport c
    [("Action", PyVal.str "GetReport"),
     ("ReportId", report_id)]
    (some [("SellerId", merchant_id),
           ("MWSAuthToken", mws_auth_token)])

/-- `ReportClient.update_report_acknowledgements`: note that `Acknowledged`
is placed in the required `parameters` dict (with the call argument, whose
default is `None`), while only `SellerId` and `MWSAuthToken` go through the
`optionals` filtering. -/
def ReportClient.update_report_acknowledgements {ρ : Type}
    (transport : ReportRequest → ρ) (c : ReportClient) (report_id : PyVal)
    (acknowledged merchant_id mws_auth_token : PyVal) :
    ρ × ReportClient × List ReportRequest :=
  ReportClient.operation transport c
    [("Action", PyVal.str "UpdateReportAcknowledgements"),
     ("ReportIdList.Id.1", report_id),
     ("Acknowledged", acknowledged)]
    (some [("SellerId", merchant_id),
           ("MWSAuthToken", mws_auth_token)])

/-! ### Concrete fixtures used by witnesses and counterexamples -/

/-- A concrete ambient environment: empty `os.environ`, a region table
mapping only the code `na`, and fixed version/platform strings. -/
def demoEnv : SysEnv :=
  { env := fun _ => none
    regions := fun r => if r = "na" then some "mws.amazonservices.com" else none
    api_version := "2009-01-01"
    api_name := "Reports"
    application_library_version := "2.5.1"
    py_version := "3.6.5"
    platform_system := "Linux"
    platform_release := "4.15.0" }

/-- Concrete constructor arguments with all five required fields given
explicitly. -/
def demoArgs : ClientArgs :=
  { mws_access_key := some "AKIA"
    mws_secret_key := some "SECRET"
    merchant_id := some "M123"
    region := some "na"
    currency_code := some "USD" }

/-- The client `ReportClient.init demoEnv demoArgs` constructs. -/
def demoClient : ReportClient :=
  { mws_access_key := "AKIA"
    mws_secret_key := "SECRET"
    merchant_id := "M123"
    region := "na"
    currency_code := "USD"
    handle_throttle := true
    application_name := none
    application_version := none
    _region := "mws.amazonservices.com"
    _region_code := "na"
    _sandbox := false
    _api_version := "2009-01-01"
    _api_name := "Reports"
    _application_library_version := "2.5.1"
    _mws_endpoint := "https://mws.amazonservices.com/Reports/2009-01-01"
    _user_agent := "amazon-pay-sdk-python/2.5.1 (Python/3.6.5; Linux/4.15.0)"
    _headers := [("Content-Type", "application/x-www-form-urlencoded"),
                 ("User-Agent",
                  "amazon-pay-sdk-python/2.5.1 (Python/3.6.5; Linux/4.15.0)")] }

/-- Sanity: the fixture client is exactly what the constructor produces. -/
theorem demoClient_init : ReportClient.init demoEnv demoArgs =
    Except.ok demoClient := rfl

/-! ### Inversion of a successful construction -/

/-- Everything a successful `__init__` guarantees about the resulting
instance: each required field holds the resolved value, the region host
comes from the table, the derived fields (`_region_code`, `_sandbox`,
version constants, endpoint, user agent, headers) are as assigned, and the
`log_level.upper()` trap was not hit. -/
theorem init_fields (se : SysEnv) (a : ClientArgs) (c : ReportClient)
    (h : ReportClient.init se a = Except.ok c) :
    resolveField "mws_access_key" a.mws_access_key
      (se.env "AP_MWS_ACCESS_KEY") = Except.ok c.mws_access_key ∧
    resolveField "mws_secret_key" a.mws_secret_key
      (se.env "AP_MWS_SECRET_KEY") = Except.ok c.mws_secret_key ∧
    resolveField "merchant_id" a.merchant_id
      (se.env "AP_MERCHANT_ID") = Except.ok c.merchant_id ∧
    resolveField "region" a.region (se.env "AP_REGION") =
      Except.ok c.region ∧
    resolveField "currency_code" a.currency_code
      (se.env "AP_CURRENCY_CODE") = Except.ok c.currency_code ∧
    se.regions c.region = some c._region ∧
    c._region_code = c.region ∧
    c._sandbox = a.sandbox ∧
    c.handle_throttle = a.handle_throttle ∧
    c.application_name = a.application_name ∧
    c.application_version = a.application_version ∧
    c._api_version = se.api_version ∧
    c._api_name = se.api_name ∧
    c._application_library_version = se.application_library_version ∧
    c._mws_endpoint = "https://" ++ c._region ++ "/" ++ se.api_name ++ "/" ++
      se.api_version ∧
    c._user_agent = userAgent se a.application_name a.application_version ∧
    c._headers = [("Content-Type", "application/x-www-form-urlencoded"),
                  ("User-Agent", c._user_agent)] ∧
    ¬(a.log_enabled = true ∧ a.log_level = none) := by
  unfold ReportClient.init at h
  cases hmak : resolveField "mws_access_key" a.mws_access_key
      (se.env "AP_MWS_ACCESS_KEY") with
  | error e => simp only [hmak] at h; simp at h
  | ok mak =>
  simp only [hmak] at h
  cases hmsk : resolveField "mws_secret_key" a.mws_secret_key
      (se.env "AP_MWS_SECRET_KEY") with
  | error e => simp only [hmsk] at h; simp at h
  | ok msk =>
  simp only [hmsk] at h
  cases hmid : resolveField "merchant_id" a.merchant_id
      (se.env "AP_MERCHANT_ID") with
  | error e => simp only [hmid] at h; simp at h
  | ok mid =>
  simp only [hmid] at h
  cases hreg : resolveField "region" a.region (se.env "AP_REGION") with
  | error e => simp only [hreg] at h; simp at h
  | ok reg =>
  simp only [hreg] at h
  cases hcc : resolveField "currency_code" a.currency_code
      (se.env "AP_CURRENCY_CODE") with
  | error e => simp only [hcc] at h; simp at h
  | ok cc =>
  simp only [hcc] at h
  cases hhost : se.regions reg with
  | none => simp only [hhost] at h; simp at h
  | some host =>
  simp only [hhost] at h
  by_cases hlog : a.log_enabled = true ∧ a.log_level = none
  · simp only [eq_self_iff_true, hlog, if_pos] at h
    simp at h
  · rw [if_neg hlog] at h
    cases h
    simp_all [ReportClient.set_endpoint]

/-! ### C1 -/

/-- C1 counterexample: the claim "toggling the sandbox property ... changes
the endpoint string" is false at a concrete client.  For the client built
from `demoEnv`/`demoArgs`, setting `sandbox` from `False` to `True` leaves
`_mws_endpoint` exactly equal to its previous value, because
`_set_endpoint` does not read `_sandbox`. -/
theorem c1_counterexample :
    ReportClient.init demoEnv demoArgs = Except.ok demoClient ∧
    demoClient._sandbox = false ∧
    (demoClient.setSandbox true)._sandbox = true ∧
    (demoClient.setSandbox true)._mws_endpoint = demoClient._mws_endpoint :=
  ⟨rfl, rfl, rfl, rfl⟩

/-- C1 (amended): setting the sandbox property stores the new value and
recomputes the endpoint, but the recomputed endpoint is a deterministic
function of the region host and the fixed API name/version alone — it does
not depend on the sandbox value, so the endpoint string never changes on a
toggle. -/
theorem c1_sandbox_toggle_endpoint (c d : ReportClient) (b b2 : Bool)
    (hr : d._region = c._region) (hn : d._api_name = c._api_name)
    (hv : d._api_version = c._api_version) :
    (c.setSandbox b)._sandbox = b ∧
    (c.setSandbox b)._mws_endpoint =
      "https://" ++ c._region ++ "/" ++ c._api_name ++ "/" ++
        c._api_version ∧
    (d.setSandbox b2)._mws_endpoint = (c.setSandbox b)._mws_endpoint := by
  refine ⟨rfl, rfl, ?_⟩
  simp [ReportClient.setSandbox, ReportClient.set_endpoint, hr, hn, hv]

/-- C1 witness: the amended statement at the concrete fixture client, with
the two sandbox values `true` and `false`. -/
theorem c1_sandbox_toggle_endpoint_witness :
    demoClient._region = demoClient._region ∧
    demoClient._api_name = demoClient._api_name ∧
    demoClient._api_version = demoClient._api_version ∧
    ((demoClient.setSandbox true)._sandbox = true ∧
     (demoClient.setSandbox true)._mws_endpoint =
       "https://" ++ demoClient._region ++ "/" ++ demoClient._api_name ++
         "/" ++ demoClient._api_version ∧
     (demoClient.setSandbox false)._mws_endpoint =
       (demoClient.setSandbox true)._mws_endpoint) :=
  ⟨rfl, rfl, rfl,
    c1_sandbox_toggle_endpoint demoClient demoClient true false rfl rfl rfl⟩

/-! ### C3 -/

/-- Arguments in which `mws_access_key` is explicitly the empty string. -/
def emptyKeyArgs : ClientArgs :=
  { mws_access_key := some ""
    mws_secret_key := some "SECRET"
    merchant_id := some "M123"
    region := some "na"
    currency_code := some "USD" }

/-- C3 counterexample: the claim "for every input where any of these five
fields resolves to an empty value, construction fails" is false: with
`mws_access_key` passed explicitly as the empty string, construction
succeeds and the field holds the empty string — the constructor only tests `is None`, never
emptiness. -/
theorem c3_counterexample :
    ∃ c, ReportClient.init demoEnv emptyKeyArgs = Except.ok c ∧
      c.mws_access_key = "" :=
  ⟨_, rfl, rfl⟩

/-- C3 (amended): after construction succeeds, each of the five required
fields holds exactly the value resolved from the explicit argument or the
environment variable; resolution fails only when a field resolves to no
value at all (explicit argument `None` and environment variable unset) —
an empty resolved value is accepted. -/
theorem c3_fields_resolved (se : SysEnv) (a : ClientArgs) (c : ReportClient)
    (h : ReportClient.init se a = Except.ok c) :
    resolveField "mws_access_key" a.mws_access_key
      (se.env "AP_MWS_ACCESS_KEY") = Except.ok c.mws_access_key ∧
    resolveField "mws_secret_key" a.mws_secret_key
      (se.env "AP_MWS_SECRET_KEY") = Except.ok c.mws_secret_key ∧
    resolveField "merchant_id" a.merchant_id
      (se.env "AP_MERCHANT_ID") = Except.ok c.merchant_id ∧
    resolveField "region" a.region (se.env "AP_REGION") =
      Except.ok c.region ∧
    resolveField "currency_code" a.currency_code
      (se.env "AP_CURRENCY_CODE") = Except.ok c.currency_code := by
  obtain ⟨h1, h2, h3, h4, h5, -⟩ := init_fields se a c h
  exact ⟨h1, h2, h3, h4, h5⟩

/-- C3 witness: the amended statement at the fixture construction. -/
theorem c3_fields_resolved_witness :
    ReportClient.init demoEnv demoArgs = Except.ok demoClient ∧
    (resolveField "mws_access_key" demoArgs.mws_access_key
      (demoEnv.env "AP_MWS_ACCESS_KEY") = Except.ok demoClient.mws_access_key ∧
     resolveField "mws_secret_key" demoArgs.mws_secret_key
      (demoEnv.env "AP_MWS_SECRET_KEY") = Except.ok demoClient.mws_secret_key ∧
     resolveField "merchant_id" demoArgs.merchant_id
      (demoEnv.env "AP_MERCHANT_ID") = Except.ok demoClient.merchant_id ∧
     resolveField "region" demoArgs.region (demoEnv.env "AP_REGION") =
      Except.ok demoClient.region ∧
     resolveField "currency_code" demoArgs.currency_code
      (demoEnv.env "AP_CURRENCY_CODE") = Except.ok demoClient.currency_code) :=
  ⟨rfl, c3_fields_resolved demoEnv demoArgs demoClient rfl⟩

/-! ### C6 -/

/-- C6: the endpoint is the pure function
`https:// + region host + / + api name + / + api version` of the resolved
region host and the fixed API name and version, and two clients (of the
same ambient environment, hence the same fixed API name/version) with the
same region host have the same endpoint. -/
theorem c6_endpoint_pure_function (se : SysEnv) (a1 a2 : ClientArgs)
    (c1 c2 : ReportClient)
    (h1 : ReportClient.init se a1 = Except.ok c1)
    (h2 : ReportClient.init se a2 = Except.ok c2)
    (hr : c1._region = c2._region) :
    c1._mws_endpoint =
      "https://" ++ c1._region ++ "/" ++ c1._api_name ++ "/" ++
        c1._api_version ∧
    c1._api_name = se.api_name ∧
    c1._api_version = se.api_version ∧
    c1._mws_endpoint = c2._mws_endpoint := by
  obtain ⟨-, -, -, -, -, -, -, -, -, -, -, hv1, hn1, -, he1, -, -, -⟩ :=
    init_fields se a1 c1 h1
  obtain ⟨-, -, -, -, -, -, -, -, -, -, -, hv2, hn2, -, he2, -, -, -⟩ :=
    init_fields se a2 c2 h2
  refine ⟨?_, hn1, hv1, ?_⟩
  · rw [he1, hn1, hv1]
  · rw [he1, he2, hr]

/-- C6 witness: the statement at the fixture construction, taken twice. -/
theorem c6_endpoint_pure_function_witness :
    ReportClient.init demoEnv demoArgs = Except.ok demoClient ∧
    demoClient._region = demoClient._region ∧
    (demoClient._mws_endpoint =
      "https://" ++ demoClient._region ++ "/" ++ demoClient._api_name ++
        "/" ++ demoClient._api_version ∧
     demoClient._api_name = demoEnv.api_name ∧
     demoClient._api_version = demoEnv.api_version ∧
     demoClient._mws_endpoint = demoClient._mws_endpoint) :=
  ⟨rfl, rfl, c6_endpoint_pure_function demoEnv demoArgs demoArgs demoClient
    demoClient rfl rfl rfl⟩

/-! ### C8 -/

/-- C8: the sandbox setter modifies only the sandbox flag and the endpoint
string — every other piece of instance configuration is unchanged — and
none of the public operations (nor the shared `_operation` dispatch)
mutates the client: each returns the client it was given. -/
theorem c8_setter_frame {ρ : Type} (transport : ReportRequest → ρ)
    (c : ReportClient) (b : Bool) (params : List (String × PyVal))
    (options : Option (List (String × PyVal)))
    (af at_ ack rtl mid tok rid aack gmid gtok umid utok : PyVal) :
    ((c.setSandbox b).mws_access_key = c.mws_access_key ∧
     (c.setSandbox b).mws_secret_key = c.mws_secret_key ∧
     (c.setSandbox b).merchant_id = c.merchant_id ∧
     (c.setSandbox b).region = c.region ∧
     (c.setSandbox b).currency_code = c.currency_code ∧
     (c.setSandbox b).handle_throttle = c.handle_throttle ∧
     (c.setSandbox b).application_name = c.application_name ∧
     (c.setSandbox b).application_version = c.application_version ∧
     (c.setSandbox b)._region = c._region ∧
     (c.setSandbox b)._region_code = c._region_code ∧
     (c.setSandbox b)._api_version = c._api_version ∧
     (c.setSandbox b)._api_name = c._api_name ∧
     (c.setSandbox b)._application_library_version =
       c._application_library_version ∧
     (c.setSandbox b)._user_agent = c._user_agent ∧
     (c.setSandbox b)._headers = c._headers) ∧
    (ReportClient.operation transport c params options).2.1 = c ∧
    (ReportClient.get_report_list transport c af at_ ack rtl mid
      tok).2.1 = c ∧
    (ReportClient.get_report transport c rid gmid gtok).2.1 = c ∧
    (ReportClient.update_report_acknowledgements transport c rid aack umid
      utok).2.1 = c :=
  ⟨⟨rfl, rfl, rfl, rfl, rfl, rfl, rfl, rfl, rfl, rfl, rfl, rfl, rfl, rfl,
    rfl⟩, rfl, rfl, rfl, rfl⟩

/-! ### C9 -/

/-- C9: for each of the three public operations, the dispatch routine
builds exactly one `ReportRequest` whose `params` is the merged per-call
mapping and whose `config` is the client-wide mapping with exactly the keys
`mws_access_key`, `mws_secret_key`, `api_version`, `merchant_id`,
`mws_endpoint`, `headers`, `handle_throttle` (in particular neither
`currency_code` nor `region`), invokes `send_post` on it exactly once, and
returns the `response` of that request (the transport applied to the
request). -/
theorem c9_dispatch {ρ : Type} (transport : ReportRequest → ρ)
    (c : ReportClient) (params options : List (String × PyVal))
    (af at_ ack rtl mid tok rid aack gmid gtok umid utok : PyVal) :
    (ReportClient.operation transport c params (some options)).2.2 =
      [⟨mergeOptions params options, c.opConfig⟩] ∧
    (ReportClient.operation transport c params (some options)).1 =
      transport ⟨mergeOptions params options, c.opConfig⟩ ∧
    c.opConfig.map Prod.fst =
      ["mws_access_key", "mws_secret_key", "api_version", "merchant_id",
       "mws_endpoint", "headers", "handle_throttle"] ∧
    "currency_code" ∉ c.opConfig.map Prod.fst ∧
    "region" ∉ c.opConfig.map Prod.fst ∧
    ReportClient.get_report_list transport c af at_ ack rtl mid tok =
      ReportClient.operation transport c
        [("Action", PyVal.str "GetReportList")]
        (some [("AvailableFromDate", af), ("AvailableToDate", at_),
               ("Acknowledged", ack), ("ReportTypeList.Type.1", rtl),
               ("SellerId", mid), ("MWSAuthToken", tok)]) ∧
    ReportClient.get_report transport c rid gmid gtok =
      ReportClient.operation transport c
        [("Action", PyVal.str "GetReport"), ("ReportId", rid)]
        (some [("SellerId", gmid), ("MWSAuthToken", gtok)]) ∧
    ReportClient.update_report_acknowledgements transport c rid aack umid
        utok =
      ReportClient.operation transport c
        [("Action", PyVal.str "UpdateReportAcknowledgements"),
         ("ReportIdList.Id.1", rid), ("Acknowledged", aack)]
        (some [("SellerId", umid), ("MWSAuthToken", utok)]) := by
  refine ⟨rfl, rfl, rfl, ?_, ?_, rfl, rfl, rfl⟩
  · simp [ReportClient.opConfig]
  · simp [ReportClient.opConfig]

/-! ### C2: dict/merge lemmas -/

/-- Updating key `k` in place leaves lookups of other keys unchanged. -/
theorem lookup_map_update_ne (d : List (String × PyVal)) (k k2 : String)
    (v : PyVal) (h : k2 ≠ k) :
    (d.map (fun p => if p.fst = k then (k, v) else p)).lookup k2 =
      d.lookup k2 := by
  induction d with
  | nil => rfl
  | cons p t ih =>
    obtain ⟨k1, v1⟩ := p
    by_cases hp : k1 = k
    · subst hp
      have hb : (k2 == k1) = false := by simp [h]
      simp [List.lookup_cons, hb, ih]
    · have : ((k1, v1).fst = k) = False := by simp [hp]
      simp [List.map_cons, this, List.lookup_cons, ih]

/-- After `d[k] = v`, looking up `k` yields `v`. -/
theorem lookup_dictInsert_self (d : List (String × PyVal)) (k : String)
    (v : PyVal) : (dictInsert d k v).lookup k = some v := by
  unfold dictInsert
  split
  · rename_i hany
    induction d with
    | nil => simp at hany
    | cons p t ih =>
      obtain ⟨k1, v1⟩ := p
      simp only [List.any_cons, Bool.or_eq_true, decide_eq_true_eq] at hany
      by_cases hp : k1 = k
      · subst hp
        simp [List.lookup_cons]
      · have hc : ((k1, v1).fst = k) = False := by simp [hp]
        have hb : (k == k1) = false := by simp [Ne.symm hp]
        simp only [List.map_cons, hc, ite_false, List.lookup_cons, hb]
        apply ih
        rcases hany with h | h
        · exact absurd h hp
        · exact h
  · rename_i hany
    rw [List.lookup_append]
    have hnone : d.lookup k = none := by
      rw [List.lookup_eq_none_iff]
      intro p hp
      simp only [List.any_eq_true, decide_eq_true_eq, not_exists, not_and] at hany
      simp [bne_iff_ne, Ne.symm (hany p hp)]
    simp [hnone]

/-- After `d[k] = v`, looking up a different key is unchanged. -/
theorem lookup_dictInsert_ne (d : List (String × PyVal)) (k k2 : String)
    (v : PyVal) (h : k2 ≠ k) :
    (dictInsert d k v).lookup k2 = d.lookup k2 := by
  unfold dictInsert
  split
  · exact lookup_map_update_ne d k k2 v h
  · rw [List.lookup_append]
    have hb : (k2 == k) = false := by simp [h]
    have : ([(k, v)] : List (String × PyVal)).lookup k2 = none := by
      rw [List.lookup_cons, hb]
      rfl
    simp [this]

/-- One step of the `_operation` options loop. -/
theorem mergeOptions_cons (ps : List (String × PyVal)) (k1 : String)
    (v1 : PyVal) (os : List (String × PyVal)) :
    mergeOptions ps ((k1, v1) :: os) =
      mergeOptions (if v1 = PyVal.pynone then ps else dictInsert ps k1 v1)
        os := rfl

/-- Keys not named in `options` keep their value from `params`. -/
theorem mergeOptions_lookup_of_not_mem (ps os : List (String × PyVal))
    (k : String) (h : k ∉ os.map Prod.fst) :
    (mergeOptions ps os).lookup k = ps.lookup k := by
  induction os generalizing ps with
  | nil => rfl
  | cons p os ih =>
    obtain ⟨k1, v1⟩ := p
    simp only [List.map_cons, List.mem_cons, not_or] at h
    rw [mergeOptions_cons, ih _ h.2]
    by_cases hv : v1 = PyVal.pynone
    · rw [if_pos hv]
    · rw [if_neg hv, lookup_dictInsert_ne _ _ _ _ h.1]

/-- A key named once in `options` and absent from `params` ends up present
exactly when its value is not `None`. -/
theorem mergeOptions_lookup_of_mem (ps os : List (String × PyVal))
    (k : String) (v : PyVal) (hnd : (os.map Prod.fst).Nodup)
    (hmem : (k, v) ∈ os) (hps : ps.lookup k = none) :
    (mergeOptions ps os).lookup k =
      if v = PyVal.pynone then none else some v := by
  induction os generalizing ps with
  | nil => simp at hmem
  | cons p os ih =>
    obtain ⟨k1, v1⟩ := p
    simp only [List.map_cons, List.nodup_cons] at hnd
    rw [mergeOptions_cons]
    rcases List.mem_cons.mp hmem with heq | hmem2
    · obtain ⟨rfl, rfl⟩ := Prod.mk.inj heq
      rw [mergeOptions_lookup_of_not_mem _ _ _ hnd.1]
      by_cases hv : v = PyVal.pynone
      · rw [if_pos hv, if_pos hv]; exact hps
      · rw [if_neg hv, if_neg hv]; exact lookup_dictInsert_self _ _ _
    · have hkne : k ≠ k1 := by
        intro e
        subst e
        exact hnd.1 (List.mem_map.mpr ⟨(k, v), hmem2, rfl⟩)
      have hps2 : (if v1 = PyVal.pynone then ps
          else dictInsert ps k1 v1).lookup k = none := by
        by_cases hv : v1 = PyVal.pynone
        · rw [if_pos hv]; exact hps
        · rw [if_neg hv, lookup_dictInsert_ne _ _ _ _ hkne]; exact hps
      exact ih _ hnd.2 hmem2 hps2

/-- The value an optional parameter contributes to the outgoing mapping:
nothing when it is `None`, itself otherwise. -/
def optVal (v : PyVal) : Option PyVal :=
  if v = PyVal.pynone then none else some v

/-- C2 (amended): for `get_report_list` and `get_report`, every optional
parameter that is `None` is excluded from the outgoing parameter mapping
and every non-`None` optional is included under its documented key; the
same holds for `SellerId` and `MWSAuthToken` in
`update_report_acknowledgements`, but its `acknowledged` argument is placed
in the required mapping and is always included under `Acknowledged`, even
when it is `None`.  The required `Action` and report-id keys are always
present. -/
theorem c2_amended (c : ReportClient)
    (af at_ ack rtl mid tok rid aack gmid gtok umid utok : PyVal) :
    (((ReportClient.get_report_list (fun r => r) c af at_ ack rtl mid
        tok).1).params.lookup "Action" = some (PyVal.str "GetReportList") ∧
     ((ReportClient.get_report_list (fun r => r) c af at_ ack rtl mid
        tok).1).params.lookup "AvailableFromDate" = optVal af ∧
     ((ReportClient.get_report_list (fun r => r) c af at_ ack rtl mid
        tok).1).params.lookup "AvailableToDate" = optVal at_ ∧
     ((ReportClient.get_report_list (fun r => r) c af at_ ack rtl mid
        tok).1).params.lookup "Acknowledged" = optVal ack ∧
     ((ReportClient.get_report_list (fun r => r) c af at_ ack rtl mid
        tok).1).params.lookup "ReportTypeList.Type.1" = optVal rtl ∧
     ((ReportClient.get_report_list (fun r => r) c af at_ ack rtl mid
        tok).1).params.lookup "SellerId" = optVal mid ∧
     ((ReportClient.get_report_list (fun r => r) c af at_ ack rtl mid
        tok).1).params.lookup "MWSAuthToken" = optVal tok) ∧
    (((ReportClient.get_report (fun r => r) c rid gmid
        gtok).1).params.lookup "Action" = some (PyVal.str "GetReport") ∧
     ((ReportClient.get_report (fun r => r) c rid gmid
        gtok).1).params.lookup "ReportId" = some rid ∧
     ((ReportClient.get_report (fun r => r) c rid gmid
        gtok).1).params.lookup "SellerId" = optVal gmid ∧
     ((ReportClient.get_report (fun r => r) c rid gmid
        gtok).1).params.lookup "MWSAuthToken" = optVal gtok) ∧
    (((ReportClient.update_report_acknowledgements (fun r => r) c rid aack
        umid utok).1).params.lookup "Action" =
          some (PyVal.str "UpdateReportAcknowledgements") ∧
     ((ReportClient.update_report_acknowledgements (fun r => r) c rid aack
        umid utok).1).params.lookup "ReportIdList.Id.1" = some rid ∧
     ((ReportClient.update_report_acknowledgements (fun r => r) c rid aack
        umid utok).1).params.lookup "Acknowledged" = some aack ∧
     ((ReportClient.update_report_acknowledgements (fun r => r) c rid aack
        umid utok).1).params.lookup "SellerId" = optVal umid ∧
     ((ReportClient.update_report_acknowledgements (fun r => r) c rid aack
        umid utok).1).params.lookup "MWSAuthToken" = optVal utok) := by
  refine ⟨⟨?_, ?_, ?_, ?_, ?_, ?_, ?_⟩, ⟨?_, ?_, ?_, ?_⟩,
    ⟨?_, ?_, ?_, ?_, ?_⟩⟩
  · exact mergeOptions_lookup_of_not_mem _ _ _ (by simp)
  · exact mergeOptions_lookup_of_mem _ _ _ _ (by simp) (by simp) rfl
  · exact mergeOptions_lookup_of_mem _ _ _ _ (by simp) (by simp) rfl
  · exact mergeOptions_lookup_of_mem _ _ _ _ (by simp) (by simp) rfl
  · exact mergeOptions_lookup_of_mem _ _ _ _ (by simp) (by simp) rfl
  · exact mergeOptions_lookup_of_mem _ _ _ _ (by simp) (by simp) rfl
  · exact mergeOptions_lookup_of_mem _ _ _ _ (by simp) (by simp) rfl
  · exact mergeOptions_lookup_of_not_mem _ _ _ (by simp)
  · exact mergeOptions_lookup_of_not_mem _ _ _ (by simp)
  · exact mergeOptions_lookup_of_mem _ _ _ _ (by simp) (by simp) rfl
  · exact mergeOptions_lookup_of_mem _ _ _ _ (by simp) (by simp) rfl
  · exact mergeOptions_lookup_of_not_mem _ _ _ (by simp)
  · exact mergeOptions_lookup_of_not_mem _ _ _ (by simp)
  · exact mergeOptions_lookup_of_not_mem _ _ _ (by simp)
  · exact mergeOptions_lookup_of_mem _ _ _ _ (by simp) (by simp) rfl
  · exact mergeOptions_lookup_of_mem _ _ _ _ (by simp) (by simp) rfl

/-- C2 counterexample: the claim "every optional parameter whose value is
null/absent is excluded from the outgoing parameter mapping" is false for
`update_report_acknowledgements`: calling it with `acknowledged=None` (its
default) still sends the key `Acknowledged` with value `None`. -/
theorem c2_counterexample :
    ((ReportClient.update_report_acknowledgements (fun r => r) demoClient
        (PyVal.str "99") PyVal.pynone PyVal.pynone PyVal.pynone).1).params =
      [("Action", PyVal.str "UpdateReportAcknowledgements"),
       ("ReportIdList.Id.1", PyVal.str "99"),
       ("Acknowledged", PyVal.pynone)] ∧
    ("Acknowledged", PyVal.pynone) ∈
      ((ReportClient.update_report_acknowledgements (fun r => r) demoClient
        (PyVal.str "99") PyVal.pynone PyVal.pynone
        PyVal.pynone).1).params := by
  refine ⟨rfl, by decide⟩

/-! ### C4 -/

/-- C4: for each of the five required fields, if the explicit constructor
argument is `None` and the corresponding environment variable is unset
(and the fields checked before it resolve, so that the loop reaches it),
construction raises `ValueError` with the message naming that field. -/
theorem c4_missing_field (se : SysEnv) (a : ClientArgs) :
    (a.mws_access_key = none → se.env "AP_MWS_ACCESS_KEY" = none →
      ReportClient.init se a =
        Except.error (InitError.valueError "Invalid mws_access_key.")) ∧
    ((∃ v, resolveField "mws_access_key" a.mws_access_key
        (se.env "AP_MWS_ACCESS_KEY") = Except.ok v) →
      a.mws_secret_key = none → se.env "AP_MWS_SECRET_KEY" = none →
      ReportClient.init se a =
        Except.error (InitError.valueError "Invalid mws_secret_key.")) ∧
    ((∃ v, resolveField "mws_access_key" a.mws_access_key
        (se.env "AP_MWS_ACCESS_KEY") = Except.ok v) →
     (∃ v, resolveField "mws_secret_key" a.mws_secret_key
        (se.env "AP_MWS_SECRET_KEY") = Except.ok v) →
      a.merchant_id = none → se.env "AP_MERCHANT_ID" = none →
      ReportClient.init se a =
        Except.error (InitError.valueError "Invalid merchant_id.")) ∧
    ((∃ v, resolveField "mws_access_key" a.mws_access_key
        (se.env "AP_MWS_ACCESS_KEY") = Except.ok v) →
     (∃ v, resolveField "mws_secret_key" a.mws_secret_key
        (se.env "AP_MWS_SECRET_KEY") = Except.ok v) →
     (∃ v, resolveField "merchant_id" a.merchant_id
        (se.env "AP_MERCHANT_ID") = Except.ok v) →
      a.region = none → se.env "AP_REGION" = none →
      ReportClient.init se a =
        Except.error (InitError.valueError "Invalid region.")) ∧
    ((∃ v, resolveField "mws_access_key" a.mws_access_key
        (se.env "AP_MWS_ACCESS_KEY") = Except.ok v) →
     (∃ v, resolveField "mws_secret_key" a.mws_secret_key
        (se.env "AP_MWS_SECRET_KEY") = Except.ok v) →
     (∃ v, resolveField "merchant_id" a.merchant_id
        (se.env "AP_MERCHANT_ID") = Except.ok v) →
     (∃ v, resolveField "region" a.region
        (se.env "AP_REGION") = Except.ok v) →
      a.currency_code = none → se.env "AP_CURRENCY_CODE" = none →
      ReportClient.init se a =
        Except.error (InitError.valueError "Invalid currency_code.")) := by
  refine ⟨?_, ?_, ?_, ?_, ?_⟩
  · intro h1 h2
    have h : resolveField "mws_access_key" a.mws_access_key
        (se.env "AP_MWS_ACCESS_KEY") =
        Except.error (InitError.valueError "Invalid mws_access_key.") := by
      simp [resolveField, h1, h2]
    simp [ReportClient.init, h]
  · rintro ⟨v1, hv1⟩ h1 h2
    have h : resolveField "mws_secret_key" a.mws_secret_key
        (se.env "AP_MWS_SECRET_KEY") =
        Except.error (InitError.valueError "Invalid mws_secret_key.") := by
      simp [resolveField, h1, h2]
    simp [ReportClient.init, hv1, h]
  · rintro ⟨v1, hv1⟩ ⟨v2, hv2⟩ h1 h2
    have h : resolveField "merchant_id" a.merchant_id
        (se.env "AP_MERCHANT_ID") =
        Except.error (InitError.valueError "Invalid merchant_id.") := by
      simp [resolveField, h1, h2]
    simp [ReportClient.init, hv1, hv2, h]
  · rintro ⟨v1, hv1⟩ ⟨v2, hv2⟩ ⟨v3, hv3⟩ h1 h2
    have h : resolveField "region" a.region (se.env "AP_REGION") =
        Except.error (InitError.valueError "Invalid region.") := by
      simp [resolveField, h1, h2]
    simp [ReportClient.init, hv1, hv2, hv3, h]
  · rintro ⟨v1, hv1⟩ ⟨v2, hv2⟩ ⟨v3, hv3⟩ ⟨v4, hv4⟩ h1 h2
    have h : resolveField "currency_code" a.currency_code
        (se.env "AP_CURRENCY_CODE") =
        Except.error (InitError.valueError "Invalid currency_code.") := by
      simp [resolveField, h1, h2]
    simp [ReportClient.init, hv1, hv2, hv3, hv4, h]

/-- Arguments missing only `currency_code`. -/
def noCurrencyArgs : ClientArgs :=
  { mws_access_key := some "AKIA"
    mws_secret_key := some "SECRET"
    merchant_id := some "M123"
    region := some "na" }

/-- C4 witness: with an empty environment, omitting everything fails naming
`mws_access_key`; omitting only `currency_code` fails naming it. -/
theorem c4_missing_field_witness :
    ClientArgs.mws_access_key {} = none ∧
    demoEnv.env "AP_MWS_ACCESS_KEY" = none ∧
    ReportClient.init demoEnv {} =
      Except.error (InitError.valueError "Invalid mws_access_key.") ∧
    noCurrencyArgs.currency_code = none ∧
    demoEnv.env "AP_CURRENCY_CODE" = none ∧
    ReportClient.init demoEnv noCurrencyArgs =
      Except.error (InitError.valueError "Invalid currency_code.") :=
  ⟨rfl, rfl, (c4_missing_field demoEnv {}).1 rfl rfl, rfl, rfl,
    (c4_missing_field demoEnv noCurrencyArgs).2.2.2.2
      ⟨"AKIA", rfl⟩ ⟨"SECRET", rfl⟩ ⟨"M123", rfl⟩ ⟨"na", rfl⟩ rfl rfl⟩

/-! ### C5 -/

/-- C5: once the five fields resolve, a resolved region code that is not a
key of the region table makes construction fail with
a `KeyError` whose message names the code; a code in the table resolves to
its host name (`_region`), with the code kept in `region`/`_region_code`. -/
theorem c5_region_lookup (se : SysEnv) (a : ClientArgs)
    (mak msk mid reg cc : String)
    (h1 : resolveField "mws_access_key" a.mws_access_key
      (se.env "AP_MWS_ACCESS_KEY") = Except.ok mak)
    (h2 : resolveField "mws_secret_key" a.mws_secret_key
      (se.env "AP_MWS_SECRET_KEY") = Except.ok msk)
    (h3 : resolveField "merchant_id" a.merchant_id
      (se.env "AP_MERCHANT_ID") = Except.ok mid)
    (h4 : resolveField "region" a.region (se.env "AP_REGION") =
      Except.ok reg)
    (h5 : resolveField "currency_code" a.currency_code
      (se.env "AP_CURRENCY_CODE") = Except.ok cc) :
    (se.regions reg = none →
      ReportClient.init se a = Except.error
        (InitError.keyError ("Invalid region code (" ++ reg ++ ")"))) ∧
    (∀ host, se.regions reg = some host →
      ¬(a.log_enabled = true ∧ a.log_level = none) →
      ∃ c, ReportClient.init se a = Except.ok c ∧ c._region = host ∧
        c.region = reg ∧ c._region_code = reg) := by
  constructor
  · intro hn
    simp [ReportClient.init, h1, h2, h3, h4, h5, hn]
  · intro host hh hlog
    refine ⟨ReportClient.set_endpoint
      { mws_access_key := mak
        mws_secret_key := msk
        merchant_id := mid
        region := reg
        currency_code := cc
        handle_throttle := a.handle_throttle
        application_name := a.application_name
        application_version := a.application_version
        _region := host
        _region_code := reg
        _sandbox := a.sandbox
        _api_version := se.api_version
        _api_name := se.api_name
        _application_library_version := se.application_library_version
        _mws_endpoint := ""
        _user_agent := userAgent se a.application_name a.application_version
        _headers := [("Content-Type", "application/x-www-form-urlencoded"),
                     ("User-Agent",
                      userAgent se a.application_name
                        a.application_version)] }, ?_, rfl, rfl, rfl⟩
    simp [ReportClient.init, h1, h2, h3, h4, h5, hh, hlog]

/-- Arguments whose region code `xx` is not in the `demoEnv` table. -/
def badRegionArgs : ClientArgs :=
  { mws_access_key := some "AKIA"
    mws_secret_key := some "SECRET"
    merchant_id := some "M123"
    region := some "xx"
    currency_code := some "USD" }

/-- C5 witness: the unmapped code `xx` fails with the named `KeyError`; the
mapped code `na` resolves to its host. -/
theorem c5_region_lookup_witness :
    resolveField "region" badRegionArgs.region (demoEnv.env "AP_REGION") =
      Except.ok "xx" ∧
    demoEnv.regions "xx" = none ∧
    ReportClient.init demoEnv badRegionArgs = Except.error
      (InitError.keyError ("Invalid region code (" ++ "xx" ++ ")")) ∧
    demoEnv.regions "na" = some "mws.amazonservices.com" ∧
    (∃ c, ReportClient.init demoEnv demoArgs = Except.ok c ∧
      c._region = "mws.amazonservices.com" ∧ c.region = "na" ∧
      c._region_code = "na") :=
  ⟨rfl, rfl,
    (c5_region_lookup demoEnv badRegionArgs "AKIA" "SECRET" "M123" "xx"
      "USD" rfl rfl rfl rfl rfl).1 rfl,
    rfl,
    (c5_region_lookup demoEnv demoArgs "AKIA" "SECRET" "M123" "na" "USD"
      rfl rfl rfl rfl rfl).2 "mws.amazonservices.com" rfl (by decide)⟩

/-! ### C7 -/

/-- C7: for every successful construction, the User-Agent string follows
the fixed template
`amazon-pay-sdk-python/<lib version> (<app name and ver>Python/<interpreter
version>; <platform>/<release>)` and contains the interpreter version and
the OS platform verbatim as substrings; the builder is total, so it never
fails for any combination of `application_name`/`application_version`. -/
theorem c7_user_agent (se : SysEnv) (a : ClientArgs) (c : ReportClient)
    (h : ReportClient.init se a = Except.ok c) :
    c._user_agent =
      "amazon-pay-sdk-python/" ++ se.application_library_version ++ " (" ++
        appNameAndVer a.application_name a.application_version ++
        "Python/" ++ se.py_version ++ "; " ++ se.platform_system ++ "/" ++
        se.platform_release ++ ")" ∧
    se.py_version.data <:+: c._user_agent.data ∧
    se.platform_system.data <:+: c._user_agent.data := by
  obtain ⟨-, -, -, -, -, -, -, -, -, -, -, -, -, -, -, hua, -, -⟩ :=
    init_fields se a c h
  rw [hua]
  unfold userAgent
  refine ⟨rfl, ?_, ?_⟩
  · exact ⟨("amazon-pay-sdk-python/" ++ se.application_library_version ++
      " (" ++ appNameAndVer a.application_name a.application_version ++
      "Python/").data,
      ("; " ++ se.platform_system ++ "/" ++ se.platform_release ++
        ")").data, by simp [String.data_append]⟩
  · exact ⟨("amazon-pay-sdk-python/" ++ se.application_library_version ++
      " (" ++ appNameAndVer a.application_name a.application_version ++
      "Python/" ++ se.py_version ++ "; ").data,
      ("/" ++ se.platform_release ++ ")").data,
      by simp [String.data_append]⟩

/-- C7 witness: the template and substring facts at the fixture client. -/
theorem c7_user_agent_witness :
    ReportClient.init demoEnv demoArgs = Except.ok demoClient ∧
    (demoClient._user_agent =
      "amazon-pay-sdk-python/" ++ demoEnv.application_library_version ++
        " (" ++ appNameAndVer demoArgs.application_name
          demoArgs.application_version ++
        "Python/" ++ demoEnv.py_version ++ "; " ++
        demoEnv.platform_system ++ "/" ++ demoEnv.platform_release ++ ")" ∧
     demoEnv.py_version.data <:+: demoClient._user_agent.data ∧
     demoEnv.platform_system.data <:+: demoClient._user_agent.data) :=
  ⟨rfl, c7_user_agent demoEnv demoArgs demoClient rfl⟩

/-! ### C10 -/

/-- C10: a configuration whose five required fields all resolve and whose
region is valid still fails construction when `log_enabled` is truthy and
`log_level` is left `None`: the constructor evaluates `log_level.upper()`
and raises `AttributeError`. -/
theorem c10_log_level_trap (se : SysEnv) (a : ClientArgs)
    (mak msk mid reg cc host : String)
    (h1 : resolveField "mws_access_key" a.mws_access_key
      (se.env "AP_MWS_ACCESS_KEY") = Except.ok mak)
    (h2 : resolveField "mws_secret_key" a.mws_secret_key
      (se.env "AP_MWS_SECRET_KEY") = Except.ok msk)
    (h3 : resolveField "merchant_id" a.merchant_id
      (se.env "AP_MERCHANT_ID") = Except.ok mid)
    (h4 : resolveField "region" a.region (se.env "AP_REGION") =
      Except.ok reg)
    (h5 : resolveField "currency_code" a.currency_code
      (se.env "AP_CURRENCY_CODE") = Except.ok cc)
    (hh : se.regions reg = some host)
    (hl : a.log_enabled = true) (hlv : a.log_level = none) :
    ReportClient.init se a = Except.error (InitError.attributeError
      "NoneType object has no attribute upper") := by
  simp [ReportClient.init, h1, h2, h3, h4, h5, hh, hl, hlv]

/-- A fully valid configuration except that logging is enabled with no
level. -/
def logTrapArgs : ClientArgs :=
  { mws_access_key := some "AKIA"
    mws_secret_key := some "SECRET"
    merchant_id := some "M123"
    region := some "na"
    currency_code := some "USD"
    log_enabled := true }

/-- C10 witness: the trap at a concrete, otherwise-valid configuration. -/
theorem c10_log_level_trap_witness :
    logTrapArgs.log_enabled = true ∧
    logTrapArgs.log_level = none ∧
    demoEnv.regions "na" = some "mws.amazonservices.com" ∧
    ReportClient.init demoEnv logTrapArgs = Except.error
      (InitError.attributeError "NoneType object has no attribute upper") :=
  ⟨rfl, rfl, rfl,
    c10_log_level_trap demoEnv logTrapArgs "AKIA" "SECRET" "M123" "na"
      "USD" "mws.amazonservices.com" rfl rfl rfl rfl rfl rfl rfl rfl⟩
